import Mathlib

/-
Verification development for `fastspeech2_train.py`, the command-line
training/testing entry point of the TTS-systems repository.

The embedding below is a shallow translation of the script into Lean:
file I/O and global state become explicit parameters and explicit state
passing, the filesystem is the list of directories that exist, and the
run of `main` is recorded as a trace of events plus an optional error.
External collaborators that are part of the repository but not included
under `src/` (the registries in `tts.datamodules` and `tts.systems`,
the merge routine `Define.merge_stats`, the logger key `Define.LOGGER`)
are modelled as parameters or, where the spec fixes their behaviour,
from the spec (marked in their doc comments).
-/

namespace FS2

/-- One dataset configuration record (an element of `data_configs`),
as produced by `DataConfigReader.read`: a unique name and a data
directory. -/
structure DataConfig where
  name : String
  data_dir : String
deriving Repr, DecidableEq

/-- A parsed statistics artifact (the JSON document at
`data_parser.stats_path`, lines 57-58): numeric sequences under the
keys `pitch` and `energy`. -/
structure StatsArtifact where
  pitch : List Int
  energy : List Int
deriving Repr, DecidableEq

/-- The algorithm configuration document; the entry point reads its
`type` and `name` fields. -/
structure AlgorithmConfig where
  type : String
  name : String
deriving Repr, DecidableEq

/-- The value inserted under `train_config["path"]` at lines 84-88. -/
structure PathConfig where
  ckpt_path : String
  log_path : String
  result_path : String
deriving Repr, DecidableEq

/-- The train configuration document: the fields `main` reads
(lines 73-76), plus the `path` entry that `main` itself inserts
(absent on entry, hence an `Option`). -/
structure TrainConfig where
  total_step : Nat
  log_step : Nat
  grad_clip_thresh : Int
  grad_acc_step : Nat
  path : Option PathConfig
deriving Repr, DecidableEq

/-- The model configuration document. The logic of this file never
inspects it, so it is kept opaque. -/
structure ModelConfig where
  raw : String
deriving Repr, DecidableEq

/-- Command-line arguments as parsed by argparse (lines 148-177):
`exp_name` and `pretrain_path` default to `None`. -/
structure Args where
  exp_name : Option String
  pretrain_path : Option String
  stage : String
deriving Repr, DecidableEq

/-- The arguments as seen by `main`: the `__main__` block (lines
194-195) has already replaced a missing `exp_name` by the algorithm
name, so `exp_name` is a plain string here. -/
structure MainArgs where
  exp_name : String
  pretrain_path : Option String
  stage : String
deriving Repr, DecidableEq

/-- The four configuration records passed to `main` (line 197). -/
structure Configs where
  data_configs : List DataConfig
  model_config : ModelConfig
  train_config : TrainConfig
  algorithm_config : AlgorithmConfig
deriving Repr, DecidableEq

/-- The ways a run of `main` can abort. `missingCheckpointError` models
the failure of `assert pretrain_ckpt_file is not None` at line 139
(named after the error taxonomy of the specification);
`unknownAlgorithmError` models an unregistered algorithm type passed to
a registry lookup; `osError` models a directory-creation failure. -/
inductive MainError where
  | missingCheckpointError
  | unknownAlgorithmError
  | osError (msg : String)
deriving Repr, DecidableEq

/-- How the model system was obtained in the train branch: a fresh
construction (line 113) or a restore from a checkpoint (line 118). -/
inductive ModelSource where
  | fresh
  | fromCheckpoint (path : String)
deriving Repr, DecidableEq

/-- Logging backends the script can attach. Only a TensorBoard logger
is ever constructed (line 96); the `comet` branch at lines 98-99 is
`pass`. -/
inductive LoggerBackend where
  | tb (log_dir : String)
  | comet
deriving Repr, DecidableEq

/-- Observable steps of a run of `main`, in program order. -/
inductive Event where
  | loadedStats (name : String)
  | computedGlobal
  | madeDir (path : String)
  | constructedDatamodule (key : String)
  | constructedSystem (key : String) (src : ModelSource)
  | constructedTrainer
  | trainerFit
  | trainerTest
deriving Repr, DecidableEq

/-- The ambient process state the script reads: the statistics
artifact found at each data directory, the external merge routine
`Define.merge_stats`, the logger key `Define.LOGGER`, and the set of
algorithm types registered in `tts.datamodules` and `tts.systems`
(the spec treats them as one registry keyed by algorithm type). -/
structure Env where
  artifacts : String → StatsArtifact
  merge_stats : List (String × List Int) → List String → List Int
  loggerKey : String
  registry : List String

/-- Python dict assignment `d[k] = v` on a dict modelled as an
insertion-ordered association list: replace in place when the key is
present, append otherwise. -/
def dictInsert (k : String) (v : α) (d : List (String × α)) : List (String × α) :=
  if (d.map Prod.fst).contains k then
    d.map (fun p => if p.1 = k then (k, v) else p)
  else d ++ [(k, v)]

/-- Python dict read `d[k]`, as an `Option`. -/
def dictLookup (k : String) (d : List (String × α)) : Option α :=
  (d.find? (fun p => p.1 == k)).map Prod.snd

/-- Lines 57-59: the per-dataset sequence loaded for one dataset,
`stats["pitch"] + stats["energy"]`. -/
def statsOf (artifacts : String → StatsArtifact) (dc : DataConfig) : List Int :=
  (artifacts dc.data_dir).pitch ++ (artifacts dc.data_dir).energy

/-- The loop at lines 54-61: build `Define.ALLSTATS` entries, one dict
assignment per dataset configuration, in list order. -/
def perDatasetStats (artifacts : String → StatsArtifact) (dcs : List DataConfig) :
    List (String × List Int) :=
  dcs.foldl (fun acc dc => dictInsert dc.name (statsOf artifacts dc) acc) []

/-- The `keys` list accumulated by the same loop. -/
def buildKeys (dcs : List DataConfig) : List String :=
  dcs.map (fun dc => dc.name)

/-- Lines 54-63: the full `Define.ALLSTATS` mapping after the loop and
after `ALLSTATS["global"] = merge_stats(ALLSTATS, keys)`. -/
def buildAllStats (env : Env) (dcs : List DataConfig) : List (String × List Int) :=
  let per := perDatasetStats env.artifacts dcs
  dictInsert "global" (env.merge_stats per (buildKeys dcs)) per

/-- `os.makedirs(p, exist_ok=ok)` on a filesystem modelled as the list
of directories that exist: creating an existing directory errors
exactly when `ok` is false, and otherwise leaves the filesystem
unchanged. Parent creation is not modelled separately. -/
def makedirs (ok : Bool) (fs : List String) (p : String) : Except String (List String) :=
  if fs.contains p then
    if ok then Except.ok fs else Except.error "FileExistsError"
  else Except.ok (p :: fs)

/-- The loop at lines 89-90: `os.makedirs(p, exist_ok=True)` over a
list of paths, stopping at the first error. -/
def createDirsE (fs : List String) : List String → Except String (List String)
  | [] => Except.ok fs
  | p :: ps =>
    match makedirs true fs p with
    | Except.ok fs2 => createDirsE fs2 ps
    | Except.error e => Except.error e

/-- The three output directory paths of lines 81-83, in the insertion
order of the `train_config["path"]` dict (ckpt, log, result), which is
the order the creation loop visits them. -/
def outputPaths (exp_name : String) : List String :=
  ["output/" ++ exp_name ++ "/ckpt",
   "output/" ++ exp_name ++ "/log",
   "output/" ++ exp_name ++ "/result"]

/-- Modelled from the spec: `tts.datamodules.get_datamodule` is code of
this repository that is not under `src/`. Per the spec it is a registry
lookup keyed by the algorithm `type` that fails with
`UnknownAlgorithmError` when the key is unregistered. -/
def get_datamodule (registry : List String) (key : String) : Except MainError Unit :=
  if registry.contains key then Except.ok () else Except.error MainError.unknownAlgorithmError

/-- Modelled from the spec: `tts.systems.get_system` is code of this
repository that is not under `src/`. Per the spec it is the same
registry lookup keyed by the algorithm `type`, failing with
`UnknownAlgorithmError` when the key is unregistered. -/
def get_system (registry : List String) (key : String) : Except MainError Unit :=
  if registry.contains key then Except.ok () else Except.error MainError.unknownAlgorithmError

/-- The outcome of a run of `main`: the event trace, the error that
aborted it (if any), the final `Define.ALLSTATS` mapping, the final
filesystem, the loggers variable, and the four configuration records
as they stand when `main` returns. -/
structure MainResult where
  events : List Event
  error : Option MainError
  allstats : List (String × List Int)
  fs : List String
  loggers : Option (List LoggerBackend)
  data_configs : List DataConfig
  model_config : ModelConfig
  train_config : TrainConfig
  algorithm_config : AlgorithmConfig

/-- Helper assembling a `MainResult` from the parts every branch of
`main` shares. -/
def mkResult (cfg : Configs) (tc : TrainConfig) (allstats : List (String × List Int))
    (fs : List String) (loggers : Option (List LoggerBackend))
    (events : List Event) (error : Option MainError) : MainResult :=
  { events := events, error := error, allstats := allstats, fs := fs, loggers := loggers,
    data_configs := cfg.data_configs, model_config := cfg.model_config,
    train_config := tc, algorithm_config := cfg.algorithm_config }

/-- Shallow embedding of `main` (lines 48-144). Program order:
load and merge statistics (53-63); record the checkpoint argument (69);
compute output paths and insert them into the train config (81-88);
create the three directories (89-90); select loggers (92-99);
construct the datamodule via the registry (101-103); then branch on
the stage (109-144). -/
def main (env : Env) (args : MainArgs) (cfg : Configs) (fs0 : List String) : MainResult :=
  let per := perDatasetStats env.artifacts cfg.data_configs
  let allstats := dictInsert "global" (env.merge_stats per (buildKeys cfg.data_configs)) per
  let statEvents :=
    (cfg.data_configs.map (fun dc => Event.loadedStats dc.name)) ++ [Event.computedGlobal]
  let pretrain_ckpt_file := args.pretrain_path
  let ckpt_dir := "output/" ++ args.exp_name ++ "/ckpt"
  let result_dir := "output/" ++ args.exp_name ++ "/result"
  let log_dir := "output/" ++ args.exp_name ++ "/log"
  let tc2 : TrainConfig :=
    { cfg.train_config with
      path := some { ckpt_path := ckpt_dir, log_path := log_dir, result_path := result_dir } }
  match createDirsE fs0 [ckpt_dir, log_dir, result_dir] with
  | Except.error e =>
    mkResult cfg tc2 allstats fs0 none statEvents (some (MainError.osError e))
  | Except.ok fs1 =>
    let baseEvents := statEvents ++
      [Event.madeDir ckpt_dir, Event.madeDir log_dir, Event.madeDir result_dir]
    let loggers : Option (List LoggerBackend) :=
      if args.stage = "train" then
        if env.loggerKey = "tb" then some [LoggerBackend.tb log_dir] else none
      else none
    match get_datamodule env.registry cfg.algorithm_config.type with
    | Except.error e =>
      mkResult cfg tc2 allstats fs1 loggers baseEvents (some e)
    | Except.ok _ =>
      let ev1 := baseEvents ++ [Event.constructedDatamodule cfg.algorithm_config.type]
      if args.stage = "train" then
        match get_system env.registry cfg.algorithm_config.type with
        | Except.error e =>
          mkResult cfg tc2 allstats fs1 loggers ev1 (some e)
        | Except.ok _ =>
          let src := match pretrain_ckpt_file with
            | none => ModelSource.fresh
            | some p => ModelSource.fromCheckpoint p
          mkResult cfg tc2 allstats fs1 loggers
            (ev1 ++ [Event.constructedSystem cfg.algorithm_config.type src,
                     Event.constructedTrainer, Event.trainerFit]) none
      else if args.stage = "test" ∨ args.stage = "predict" then
        match pretrain_ckpt_file with
        | none =>
          mkResult cfg tc2 allstats fs1 loggers ev1 (some MainError.missingCheckpointError)
        | some p =>
          match get_system env.registry cfg.algorithm_config.type with
          | Except.error e =>
            mkResult cfg tc2 allstats fs1 loggers ev1 (some e)
          | Except.ok _ =>
            mkResult cfg tc2 allstats fs1 loggers
              (ev1 ++ [Event.constructedSystem cfg.algorithm_config.type
                         (ModelSource.fromCheckpoint p),
                       Event.constructedTrainer, Event.trainerTest]) none
      else
        mkResult cfg tc2 allstats fs1 loggers ev1 none

/-- Lines 194-195: the experiment name defaults to the `name` field of
the algorithm config when the flag was not given. -/
def resolveExpName (exp_name : Option String) (ac : AlgorithmConfig) : String :=
  match exp_name with
  | none => ac.name
  | some n => n

/-- The `__main__` glue (lines 194-199): resolve the experiment name,
then call `main`. -/
def run (env : Env) (args : Args) (cfg : Configs) (fs0 : List String) : MainResult :=
  main env
    { exp_name := resolveExpName args.exp_name cfg.algorithm_config,
      pretrain_path := args.pretrain_path, stage := args.stage }
    cfg fs0

/-- The effect on the filesystem of `os.makedirs(p, exist_ok=True)`,
as a total function (with `exist_ok=True` the call cannot fail). -/
def mkdirOk (fs : List String) (p : String) : List String :=
  if fs.contains p then fs else p :: fs

/-- The events every completed setup phase of `main` emits, in order:
per-dataset stats loads, the global merge, and the three directory
creations. -/
def setupEvents (args : MainArgs) (cfg : Configs) : List Event :=
  (cfg.data_configs.map (fun dc => Event.loadedStats dc.name)) ++ [Event.computedGlobal]
    ++ (outputPaths args.exp_name).map Event.madeDir

/-- The model source chosen by the train branch (lines 112-122). -/
def srcOf : Option String → ModelSource
  | none => ModelSource.fresh
  | some p => ModelSource.fromCheckpoint p

/-- The train config record as `main` leaves it: the `path` entry
filled in with the three output paths. -/
def withPaths (tc : TrainConfig) (exp_name : String) : TrainConfig :=
  { tc with
    path := some { ckpt_path := "output/" ++ exp_name ++ "/ckpt",
                   log_path := "output/" ++ exp_name ++ "/log",
                   result_path := "output/" ++ exp_name ++ "/result" } }

/-- A concrete statistics artifact used to evaluate the development on
closed inputs: pitch [1, 2] and energy [3, 4]. -/
def sampleArtifact : StatsArtifact := { pitch := [1, 2], energy := [3, 4] }

/-- A concrete stand-in for the external merge routine: plain
concatenation of the per-dataset sequences. -/
def sampleMerge : List (String × List Int) → List String → List Int :=
  fun per _ => (per.map Prod.snd).flatten

/-- A concrete environment: every data directory carries
`sampleArtifact`, the logger key is `tb`, and `fs2` is the only
registered algorithm type. -/
def sampleEnv : Env :=
  { artifacts := fun _ => sampleArtifact,
    merge_stats := sampleMerge,
    loggerKey := "tb",
    registry := ["fs2"] }

/-- The same environment with the logger key set to `comet`. -/
def cometEnv : Env :=
  { artifacts := fun _ => sampleArtifact,
    merge_stats := sampleMerge,
    loggerKey := "comet",
    registry := ["fs2"] }

/-- A concrete dataset configuration. -/
def sampleDC : DataConfig := { name := "LJSpeech", data_dir := "raw-data/LJSpeech" }

/-- A concrete train configuration, with no `path` entry yet. -/
def sampleTrainConfig : TrainConfig :=
  { total_step := 200000, log_step := 1000, grad_clip_thresh := 1, grad_acc_step := 1,
    path := none }

/-- Concrete configs: one dataset, algorithm type `fs2`, algorithm
name `baseline`. -/
def sampleCfg : Configs :=
  { data_configs := [sampleDC],
    model_config := { raw := "base" },
    train_config := sampleTrainConfig,
    algorithm_config := { type := "fs2", name := "baseline" } }

/-- The same configs with an algorithm type absent from the registry. -/
def unknownCfg : Configs :=
  { data_configs := [sampleDC],
    model_config := { raw := "base" },
    train_config := sampleTrainConfig,
    algorithm_config := { type := "mystery", name := "baseline" } }

/-- Concrete resolved arguments for a train run without a checkpoint. -/
def trainArgs : MainArgs := { exp_name := "baseline", pretrain_path := none, stage := "train" }

/-- Concrete resolved arguments for a train run resuming a checkpoint. -/
def resumeArgs : MainArgs :=
  { exp_name := "baseline", pretrain_path := some "ckpt/last.ckpt", stage := "train" }

/-- Concrete resolved arguments for a test run without a checkpoint. -/
def testArgs : MainArgs := { exp_name := "baseline", pretrain_path := none, stage := "test" }

/-- Concrete resolved arguments with a misspelled stage value. -/
def oddArgs : MainArgs := { exp_name := "baseline", pretrain_path := none, stage := "tets" }

/-- Concrete command-line arguments with no explicit experiment name. -/
def cliArgs : Args := { exp_name := none, pretrain_path := none, stage := "train" }

theorem makedirs_true_eq (fs : List String) (p : String) :
    makedirs true fs p = Except.ok (mkdirOk fs p) := by
  unfold makedirs mkdirOk
  split <;> rfl

theorem createDirsE_eq (ps : List String) (fs : List String) :
    createDirsE fs ps = Except.ok (ps.foldl mkdirOk fs) := by
  induction ps generalizing fs with
  | nil => rfl
  | cons p ps ih => simp [createDirsE, makedirs_true_eq, ih]

theorem mem_mkdirOk_self (fs : List String) (p : String) : p ∈ mkdirOk fs p := by
  unfold mkdirOk
  split
  · exact List.elem_iff.mp (by assumption)
  · exact List.mem_cons_self p fs

theorem mem_mkdirOk_mono (fs : List String) (p q : String) (h : q ∈ fs) : q ∈ mkdirOk fs p := by
  unfold mkdirOk
  split
  · exact h
  · exact List.mem_cons_of_mem p h

theorem mem_foldl_mkdirOk_mono (ps : List String) (fs : List String) (q : String) (h : q ∈ fs) :
    q ∈ ps.foldl mkdirOk fs := by
  induction ps generalizing fs with
  | nil => exact h
  | cons p ps ih => exact ih _ (mem_mkdirOk_mono fs p q h)

theorem mem_foldl_mkdirOk_of_mem (ps : List String) (fs : List String) (p : String)
    (h : p ∈ ps) : p ∈ ps.foldl mkdirOk fs := by
  induction ps generalizing fs with
  | nil => cases h
  | cons a as ih =>
    rcases List.mem_cons.mp h with h1 | h2
    · subst h1
      exact mem_foldl_mkdirOk_mono as _ p (mem_mkdirOk_self fs p)
    · exact ih _ h2

theorem foldl_mkdirOk_stable (ps fs : List String) (h : ∀ p ∈ ps, p ∈ fs) :
    ps.foldl mkdirOk fs = fs := by
  induction ps with
  | nil => rfl
  | cons a as ih =>
    have ha : mkdirOk fs a = fs := by
      unfold mkdirOk
      rw [if_pos (List.elem_iff.mpr (h a (List.mem_cons_self a as)))]
    rw [List.foldl_cons, ha]
    exact ih (fun p hp => h p (List.mem_cons_of_mem a hp))

theorem perDatasetStats_go (artifacts : String → StatsArtifact) (dcs : List DataConfig)
    (acc : List (String × List Int))
    (hnd : (buildKeys dcs).Nodup)
    (hdisj : ∀ dc ∈ dcs, dc.name ∉ acc.map Prod.fst) :
    dcs.foldl (fun a dc => dictInsert dc.name (statsOf artifacts dc) a) acc
      = acc ++ dcs.map (fun dc => (dc.name, statsOf artifacts dc)) := by
  induction dcs generalizing acc with
  | nil => simp
  | cons d ds ih =>
    have hd : ¬ ((acc.map Prod.fst).contains d.name = true) := by
      simpa [List.elem_iff] using hdisj d (List.mem_cons_self d ds)
    have hstep : dictInsert d.name (statsOf artifacts d) acc
        = acc ++ [(d.name, statsOf artifacts d)] := by
      unfold dictInsert
      rw [if_neg hd]
    have hnd2 : (buildKeys ds).Nodup := by
      simp only [buildKeys, List.map_cons, List.nodup_cons] at hnd
      exact hnd.2
    have hhead : d.name ∉ ds.map (fun dc => dc.name) := by
      simp only [buildKeys, List.map_cons, List.nodup_cons] at hnd
      exact hnd.1
    rw [List.foldl_cons, hstep,
      ih _ hnd2 (fun dc hdc => by
        simp only [List.map_append, List.mem_append, List.map_cons, List.map_nil]
        rintro (hin | hin)
        · exact hdisj dc (List.mem_cons_of_mem d hdc) hin
        · simp only [List.mem_singleton] at hin
          exact hhead (hin ▸ List.mem_map.mpr ⟨dc, hdc, rfl⟩))]
    simp

theorem perDatasetStats_eq_map (artifacts : String → StatsArtifact) (dcs : List DataConfig)
    (hnd : (buildKeys dcs).Nodup) :
    perDatasetStats artifacts dcs = dcs.map (fun dc => (dc.name, statsOf artifacts dc)) := by
  simpa using perDatasetStats_go artifacts dcs [] hnd (by simp)

theorem dictLookup_map_keys (f : DataConfig → List Int) (dcs : List DataConfig)
    (hnd : (dcs.map (fun x => x.name)).Nodup)
    (dc : DataConfig) (hmem : dc ∈ dcs) :
    dictLookup dc.name (dcs.map (fun x => (x.name, f x))) = some (f dc) := by
  induction dcs with
  | nil => cases hmem
  | cons d ds ih =>
    rcases List.mem_cons.mp hmem with h1 | h2
    · subst h1
      simp [dictLookup, List.find?]
    · have hne : ¬ (d.name = dc.name) := by
        have h1 : d.name ∉ ds.map (fun x => x.name) := by
          simp only [List.map_cons, List.nodup_cons] at hnd
          exact hnd.1
        intro he
        exact h1 (he ▸ List.mem_map.mpr ⟨dc, h2, rfl⟩)
      have hnd2 : (ds.map (fun x => x.name)).Nodup := by
        simp only [List.map_cons, List.nodup_cons] at hnd
        exact hnd.2
      simp only [List.map_cons, dictLookup, List.find?]
      have hb : ((d.name, f d).1 == dc.name) = false := by
        simp [hne]
      rw [hb]
      exact ih hnd2 h2

theorem dictLookup_perDatasetStats (artifacts : String → StatsArtifact)
    (dcs : List DataConfig) (hnd : (buildKeys dcs).Nodup)
    (dc : DataConfig) (hmem : dc ∈ dcs) :
    dictLookup dc.name (perDatasetStats artifacts dcs) = some (statsOf artifacts dc) := by
  rw [perDatasetStats_eq_map artifacts dcs hnd]
  exact dictLookup_map_keys (statsOf artifacts) dcs (by simpa [buildKeys] using hnd) dc hmem

/-- Whatever branch `main` takes, its result is a `mkResult` whose
config, stats, filesystem and logger components are fixed functions of
the inputs; only the event trace and the error vary by branch. -/
theorem main_shape (env : Env) (args : MainArgs) (cfg : Configs) (fs0 : List String) :
    ∃ ev er,
      main env args cfg fs0 =
        mkResult cfg (withPaths cfg.train_config args.exp_name)
          (buildAllStats env cfg.data_configs)
          ((outputPaths args.exp_name).foldl mkdirOk fs0)
          (if args.stage = "train" then
             (if env.loggerKey = "tb" then
                some [LoggerBackend.tb ("output/" ++ args.exp_name ++ "/log")]
              else none)
           else none)
          ev er := by
  simp only [main, createDirsE_eq, buildAllStats, withPaths, outputPaths]
  repeat' split
  all_goals exact ⟨_, _, rfl⟩

/-- In the train branch with a registered algorithm type, `main` runs
to completion: setup, datamodule, system (fresh or from checkpoint),
trainer, fit; no error. -/
theorem main_train_events (env : Env) (args : MainArgs) (cfg : Configs) (fs0 : List String)
    (hstage : args.stage = "train")
    (hreg : env.registry.contains cfg.algorithm_config.type = true) :
    (main env args cfg fs0).events
      = setupEvents args cfg
        ++ [Event.constructedDatamodule cfg.algorithm_config.type,
            Event.constructedSystem cfg.algorithm_config.type (srcOf args.pretrain_path),
            Event.constructedTrainer, Event.trainerFit]
    ∧ (main env args cfg fs0).error = none := by
  cases hp : args.pretrain_path with
  | none =>
    simp only [main, createDirsE_eq, get_datamodule, get_system, hreg, hstage, hp, if_true]
    constructor <;> simp [mkResult, setupEvents, outputPaths, srcOf]
  | some p =>
    simp only [main, createDirsE_eq, get_datamodule, get_system, hreg, hstage, hp, if_true]
    constructor <;> simp [mkResult, setupEvents, outputPaths, srcOf]

/-- In the test/predict branch with a registered algorithm type and no
checkpoint path, `main` constructs the datamodule and then aborts on
the checkpoint assertion; no system and no trainer are constructed. -/
theorem main_testlike_missing_ckpt (env : Env) (args : MainArgs) (cfg : Configs)
    (fs0 : List String)
    (hstage : args.stage = "test" ∨ args.stage = "predict")
    (hpre : args.pretrain_path = none)
    (hreg : env.registry.contains cfg.algorithm_config.type = true) :
    (main env args cfg fs0).events
      = setupEvents args cfg ++ [Event.constructedDatamodule cfg.algorithm_config.type]
    ∧ (main env args cfg fs0).error = some MainError.missingCheckpointError := by
  have hnt : ¬ (args.stage = "train") := by
    rcases hstage with h | h <;> simp [h]
  rcases hstage with h | h <;>
  · simp only [main, createDirsE_eq, get_datamodule, hreg, h, hpre, if_true]
    constructor <;> simp [mkResult, setupEvents, outputPaths]

/-- For a stage outside train/test/predict with a registered algorithm
type, `main` performs the full setup and datamodule construction, then
returns without error and without any trainer activity. -/
theorem main_other_stage_events (env : Env) (args : MainArgs) (cfg : Configs)
    (fs0 : List String)
    (hstage : ¬ (args.stage = "train") ∧ ¬ (args.stage = "test") ∧ ¬ (args.stage = "predict"))
    (hreg : env.registry.contains cfg.algorithm_config.type = true) :
    (main env args cfg fs0).events
      = setupEvents args cfg ++ [Event.constructedDatamodule cfg.algorithm_config.type]
    ∧ (main env args cfg fs0).error = none := by
  obtain ⟨h1, h2, h3⟩ := hstage
  simp only [main, createDirsE_eq, get_datamodule, hreg, h1, h2, h3, if_true, if_false,
    ite_false, or_self, or_false, false_or]
  constructor <;> simp [mkResult, setupEvents, outputPaths, h1, h2, h3]

/-- With an unregistered algorithm type, `main` aborts at the
datamodule registry lookup with `unknownAlgorithmError`, whatever the
stage. -/
theorem main_unknown_algorithm (env : Env) (args : MainArgs) (cfg : Configs)
    (fs0 : List String)
    (hreg : env.registry.contains cfg.algorithm_config.type = false) :
    (main env args cfg fs0).events = setupEvents args cfg
    ∧ (main env args cfg fs0).error = some MainError.unknownAlgorithmError := by
  simp only [main, createDirsE_eq, get_datamodule, hreg]
  constructor <;> simp [mkResult, setupEvents, outputPaths]

/-- C3: for every dataset (in a run whose dataset names are distinct)
whose statistics artifact carries numeric `pitch` and `energy`
sequences, the per-dataset sequence stored by the stats loop equals the
pitch sequence followed by the energy sequence. -/
theorem stats_entry_concat (env : Env) (dcs : List DataConfig)
    (hnd : (buildKeys dcs).Nodup) (dc : DataConfig) (hmem : dc ∈ dcs) :
    dictLookup dc.name (perDatasetStats env.artifacts dcs)
      = some ((env.artifacts dc.data_dir).pitch ++ (env.artifacts dc.data_dir).energy) :=
  dictLookup_perDatasetStats env.artifacts dcs hnd dc hmem

/-- Witness for C3: with pitch [1, 2] and energy [3, 4] the stored
sequence is [1, 2, 3, 4]. -/
theorem stats_entry_concat_witness :
    dictLookup "LJSpeech" (perDatasetStats sampleEnv.artifacts [sampleDC])
      = some [1, 2, 3, 4] := by
  have h := stats_entry_concat sampleEnv [sampleDC] (by decide) sampleDC
    (List.mem_singleton.mpr rfl)
  simpa [sampleEnv, sampleArtifact, sampleDC] using h

/-- C4: for a non-empty list of dataset configurations with distinct
names (none being the reserved name global), the final stats mapping
has exactly one key per dataset, in order, plus one final global key;
and the mapping over which the global entry is merged already contains
an entry for every dataset. -/
theorem allstats_entries (env : Env) (dcs : List DataConfig)
    (hne : dcs ≠ [])
    (hnd : (buildKeys dcs).Nodup)
    (hg : "global" ∉ buildKeys dcs) :
    (buildAllStats env dcs).map Prod.fst = buildKeys dcs ++ ["global"]
    ∧ ∀ dc ∈ dcs, ∃ v,
        dictLookup dc.name (perDatasetStats env.artifacts dcs) = some v := by
  constructor
  · have hkeys : (perDatasetStats env.artifacts dcs).map Prod.fst = buildKeys dcs := by
      rw [perDatasetStats_eq_map env.artifacts dcs hnd]
      simp [buildKeys]
    have hgc : ¬ (((perDatasetStats env.artifacts dcs).map Prod.fst).contains "global" = true) := by
      rw [hkeys]
      simpa [List.elem_iff] using hg
    unfold buildAllStats dictInsert
    rw [if_neg hgc]
    simp [hkeys]
  · intro dc hmem
    exact ⟨statsOf env.artifacts dc, dictLookup_perDatasetStats env.artifacts dcs hnd dc hmem⟩

/-- Witness for C4: one dataset named LJSpeech gives the key list
[LJSpeech, global] and an entry for the dataset. -/
theorem allstats_entries_witness :
    (buildAllStats sampleEnv [sampleDC]).map Prod.fst = ["LJSpeech", "global"]
    ∧ (∃ v, dictLookup "LJSpeech" (perDatasetStats sampleEnv.artifacts [sampleDC]) = some v) := by
  have h := allstats_entries sampleEnv [sampleDC] (by simp) (by decide) (by decide)
  refine ⟨by simpa [buildKeys, sampleDC] using h.1, ?_⟩
  simpa [sampleDC] using h.2 sampleDC (List.mem_singleton.mpr rfl)

/-- C5: a run whose algorithm type is not registered aborts with the
dedicated `unknownAlgorithmError` raised by the registry lookup. -/
theorem unknown_algorithm_aborts (env : Env) (args : MainArgs) (cfg : Configs)
    (fs0 : List String)
    (hreg : env.registry.contains cfg.algorithm_config.type = false) :
    (main env args cfg fs0).error = some MainError.unknownAlgorithmError :=
  (main_unknown_algorithm env args cfg fs0 hreg).2

/-- Witness for C5: algorithm type `mystery` against a registry that
only holds `fs2`. -/
theorem unknown_algorithm_aborts_witness :
    (main sampleEnv trainArgs unknownCfg []).error = some MainError.unknownAlgorithmError :=
  unknown_algorithm_aborts sampleEnv trainArgs unknownCfg [] (by decide)

/-- C10: `main` updates the train config by filling in its `path`
entry with the ckpt, log and result directories, and returns the data,
model and algorithm configs unchanged. -/
theorem main_config_frame (env : Env) (args : MainArgs) (cfg : Configs) (fs0 : List String) :
    (main env args cfg fs0).train_config
      = { cfg.train_config with
          path := some { ckpt_path := "output/" ++ args.exp_name ++ "/ckpt",
                         log_path := "output/" ++ args.exp_name ++ "/log",
                         result_path := "output/" ++ args.exp_name ++ "/result" } }
    ∧ (main env args cfg fs0).data_configs = cfg.data_configs
    ∧ (main env args cfg fs0).model_config = cfg.model_config
    ∧ (main env args cfg fs0).algorithm_config = cfg.algorithm_config := by
  obtain ⟨ev, er, hm⟩ := main_shape env args cfg fs0
  rw [hm]
  exact ⟨rfl, rfl, rfl, rfl⟩

/-- C1 counterexample: invoking stage test with no checkpoint path on
a registered algorithm type does fail with the missing-checkpoint
error, but the datamodule has already been constructed when the
failure occurs, so the failure does not come before datamodule
construction as claimed. -/
theorem test_missing_ckpt_after_datamodule_cex :
    (main sampleEnv testArgs sampleCfg []).error = some MainError.missingCheckpointError
    ∧ Event.constructedDatamodule "fs2" ∈ (main sampleEnv testArgs sampleCfg []).events := by
  constructor
  · decide
  · decide

/-- C1 (amended): for every run with stage test or predict, no
checkpoint path and a registered algorithm type, `main` fails with the
missing-checkpoint error; the failure occurs after the datamodule is
constructed but before any system or trainer is constructed. -/
theorem test_missing_ckpt_fails (env : Env) (args : MainArgs) (cfg : Configs)
    (fs0 : List String)
    (hstage : args.stage = "test" ∨ args.stage = "predict")
    (hpre : args.pretrain_path = none)
    (hreg : env.registry.contains cfg.algorithm_config.type = true) :
    (main env args cfg fs0).error = some MainError.missingCheckpointError
    ∧ Event.constructedDatamodule cfg.algorithm_config.type ∈ (main env args cfg fs0).events
    ∧ Event.constructedTrainer ∉ (main env args cfg fs0).events
    ∧ (∀ k src, Event.constructedSystem k src ∉ (main env args cfg fs0).events)
    ∧ Event.trainerTest ∉ (main env args cfg fs0).events := by
  obtain ⟨hev, herr⟩ := main_testlike_missing_ckpt env args cfg fs0 hstage hpre hreg
  refine ⟨herr, ?_, ?_, ?_, ?_⟩ <;> rw [hev] <;>
    simp [setupEvents, outputPaths]

/-- Witness for the amended C1, at stage test with the sample setup. -/
theorem test_missing_ckpt_fails_witness :
    (main sampleEnv testArgs sampleCfg []).error = some MainError.missingCheckpointError
    ∧ Event.constructedDatamodule "fs2" ∈ (main sampleEnv testArgs sampleCfg []).events
    ∧ Event.constructedTrainer ∉ (main sampleEnv testArgs sampleCfg []).events := by
  have h := test_missing_ckpt_fails sampleEnv testArgs sampleCfg []
    (Or.inl rfl) rfl (by decide)
  exact ⟨h.1, h.2.1, h.2.2.1⟩

/-- C2 counterexample: in the train stage with the logger key set to
comet, no logging backend is attached, although the claim says the
recognized key comet yields an attached backend of that kind. -/
theorem comet_key_attaches_no_logger_cex :
    (main cometEnv trainArgs sampleCfg []).loggers = none := by
  obtain ⟨ev, er, hm⟩ := main_shape cometEnv trainArgs sampleCfg []
  rw [hm]
  simp [mkResult, cometEnv, trainArgs]

/-- C2 (amended): in the train stage the logger key tb yields an
attached TensorBoard backend; every other key value, including comet,
leaves logging disabled. -/
theorem logger_selection (env : Env) (args : MainArgs) (cfg : Configs) (fs0 : List String)
    (h : args.stage = "train") :
    (env.loggerKey = "tb" →
       (main env args cfg fs0).loggers
         = some [LoggerBackend.tb ("output/" ++ args.exp_name ++ "/log")])
    ∧ (env.loggerKey ≠ "tb" → (main env args cfg fs0).loggers = none) := by
  obtain ⟨ev, er, hm⟩ := main_shape env args cfg fs0
  rw [hm]
  constructor <;> intro hk <;> simp [mkResult, h, hk]

/-- Witness for the amended C2: key tb attaches the TensorBoard
backend, key comet attaches nothing. -/
theorem logger_selection_witness :
    (main sampleEnv trainArgs sampleCfg []).loggers
      = some [LoggerBackend.tb "output/baseline/log"]
    ∧ (main cometEnv trainArgs sampleCfg []).loggers = none := by
  refine ⟨?_, ?_⟩
  · have h := (logger_selection sampleEnv trainArgs sampleCfg [] rfl).1 rfl
    simpa using h
  · have h := (logger_selection cometEnv trainArgs sampleCfg [] rfl).2 (by decide)
    exact h

/-- C6: with no explicit experiment name the resolved name is the
algorithm config name (an explicit name wins otherwise), and every run
creates the three output directories for the resolved name. -/
theorem exp_name_and_dirs (env : Env) (args : Args) (cfg : Configs) (fs0 : List String) :
    (args.exp_name = none →
       resolveExpName args.exp_name cfg.algorithm_config = cfg.algorithm_config.name)
    ∧ (∀ n, args.exp_name = some n →
       resolveExpName args.exp_name cfg.algorithm_config = n)
    ∧ ∀ d ∈ outputPaths (resolveExpName args.exp_name cfg.algorithm_config),
        d ∈ (run env args cfg fs0).fs := by
  refine ⟨?_, ?_, ?_⟩
  · intro h
    simp [resolveExpName, h]
  · intro n h
    simp [resolveExpName, h]
  · intro d hd
    obtain ⟨ev, er, hm⟩ := main_shape env
      { exp_name := resolveExpName args.exp_name cfg.algorithm_config,
        pretrain_path := args.pretrain_path, stage := args.stage } cfg fs0
    unfold run
    rw [hm]
    simpa [mkResult] using mem_foldl_mkdirOk_of_mem _ fs0 d hd

/-- Witness for C6: exp name absent, algorithm name baseline; the
three directories are in the final filesystem. -/
theorem exp_name_and_dirs_witness :
    resolveExpName none sampleCfg.algorithm_config = "baseline"
    ∧ "output/baseline/ckpt" ∈ (run sampleEnv cliArgs sampleCfg []).fs
    ∧ "output/baseline/log" ∈ (run sampleEnv cliArgs sampleCfg []).fs
    ∧ "output/baseline/result" ∈ (run sampleEnv cliArgs sampleCfg []).fs := by
  have h := exp_name_and_dirs sampleEnv cliArgs sampleCfg []
  exact ⟨h.1 rfl,
    h.2.2 "output/baseline/ckpt" (by decide),
    h.2.2 "output/baseline/log" (by decide),
    h.2.2 "output/baseline/result" (by decide)⟩

/-- C7: directory creation is idempotent: re-running `main` on the
filesystem a first run left behind does not change the filesystem, and
creating the output directories (with the exist-ok flag of the source)
never fails, whatever already exists. -/
theorem dirs_idempotent (env : Env) (args : MainArgs) (cfg : Configs) (fs0 : List String) :
    (main env args cfg (main env args cfg fs0).fs).fs = (main env args cfg fs0).fs
    ∧ ∀ fs, ∃ fsOut, createDirsE fs (outputPaths args.exp_name) = Except.ok fsOut := by
  constructor
  · obtain ⟨ev2, er2, h2⟩ := main_shape env args cfg ((main env args cfg fs0).fs)
    obtain ⟨ev, er, h1⟩ := main_shape env args cfg fs0
    rw [h2, h1]
    simp only [mkResult]
    exact foldl_mkdirOk_stable _ _ (fun p hp => mem_foldl_mkdirOk_of_mem _ _ p hp)
  · intro fs
    exact ⟨_, createDirsE_eq _ fs⟩

/-- C8: in the train stage the system is obtained from the registry
keyed by the algorithm type; it is built fresh when no checkpoint path
was supplied and restored from the checkpoint when one was. -/
theorem train_system_source (env : Env) (args : MainArgs) (cfg : Configs) (fs0 : List String)
    (hstage : args.stage = "train")
    (hreg : env.registry.contains cfg.algorithm_config.type = true) :
    (main env args cfg fs0).error = none
    ∧ (args.pretrain_path = none →
        Event.constructedSystem cfg.algorithm_config.type ModelSource.fresh
          ∈ (main env args cfg fs0).events)
    ∧ (∀ p, args.pretrain_path = some p →
        Event.constructedSystem cfg.algorithm_config.type (ModelSource.fromCheckpoint p)
          ∈ (main env args cfg fs0).events) := by
  obtain ⟨hev, herr⟩ := main_train_events env args cfg fs0 hstage hreg
  refine ⟨herr, ?_, ?_⟩
  · intro hp
    rw [hev]
    simp [srcOf, hp]
  · intro p hp
    rw [hev]
    simp [srcOf, hp]

/-- Witness for C8: a fresh system without a checkpoint, a restored
system with one. -/
theorem train_system_source_witness :
    Event.constructedSystem "fs2" ModelSource.fresh
      ∈ (main sampleEnv trainArgs sampleCfg []).events
    ∧ Event.constructedSystem "fs2" (ModelSource.fromCheckpoint "ckpt/last.ckpt")
      ∈ (main sampleEnv resumeArgs sampleCfg []).events := by
  have h1 := train_system_source sampleEnv trainArgs sampleCfg [] rfl (by decide)
  have h2 := train_system_source sampleEnv resumeArgs sampleCfg [] rfl (by decide)
  exact ⟨h1.2.1 rfl, h2.2.2 "ckpt/last.ckpt" rfl⟩

/-- C9: for a stage value outside train, test and predict (with a
registered algorithm type), `main` raises no error, performs the whole
setup (stats aggregation, directory creation, datamodule
construction), and invokes no trainer lifecycle action. -/
theorem unknown_stage_noop (env : Env) (args : MainArgs) (cfg : Configs) (fs0 : List String)
    (hstage : ¬ (args.stage = "train") ∧ ¬ (args.stage = "test") ∧ ¬ (args.stage = "predict"))
    (hreg : env.registry.contains cfg.algorithm_config.type = true) :
    (main env args cfg fs0).error = none
    ∧ (main env args cfg fs0).allstats = buildAllStats env cfg.data_configs
    ∧ Event.computedGlobal ∈ (main env args cfg fs0).events
    ∧ (∀ d ∈ outputPaths args.exp_name, d ∈ (main env args cfg fs0).fs)
    ∧ Event.constructedDatamodule cfg.algorithm_config.type ∈ (main env args cfg fs0).events
    ∧ Event.constructedTrainer ∉ (main env args cfg fs0).events
    ∧ Event.trainerFit ∉ (main env args cfg fs0).events
    ∧ Event.trainerTest ∉ (main env args cfg fs0).events
    ∧ (∀ k src, Event.constructedSystem k src ∉ (main env args cfg fs0).events) := by
  obtain ⟨hev, herr⟩ := main_other_stage_events env args cfg fs0 hstage hreg
  obtain ⟨ev, er, hm⟩ := main_shape env args cfg fs0
  refine ⟨herr, ?_, ?_, ?_, ?_, ?_, ?_, ?_, ?_⟩
  · rw [hm]
    rfl
  · rw [hev]
    simp [setupEvents]
  · intro d hd
    rw [hm]
    simpa [mkResult] using mem_foldl_mkdirOk_of_mem _ fs0 d hd
  · rw [hev]
    simp
  · rw [hev]
    simp [setupEvents, outputPaths]
  · rw [hev]
    simp [setupEvents, outputPaths]
  · rw [hev]
    simp [setupEvents, outputPaths]
  · intro k src
    rw [hev]
    simp [setupEvents, outputPaths]

/-- Witness for C9: a misspelled stage value on the sample setup. -/
theorem unknown_stage_noop_witness :
    (main sampleEnv oddArgs sampleCfg []).error = none
    ∧ Event.constructedDatamodule "fs2" ∈ (main sampleEnv oddArgs sampleCfg []).events
    ∧ Event.trainerFit ∉ (main sampleEnv oddArgs sampleCfg []).events
    ∧ "output/baseline/ckpt" ∈ (main sampleEnv oddArgs sampleCfg []).fs := by
  have h := unknown_stage_noop sampleEnv oddArgs sampleCfg []
    (by refine ⟨?_, ?_, ?_⟩ <;> decide) (by decide)
  exact ⟨h.1, h.2.2.2.2.1, h.2.2.2.2.2.2.1, h.2.2.2.1 "output/baseline/ckpt" (by decide)⟩

end FS2
